/-
Verification of the halotools numerical core: the Zheng07 HOD occupation
model and the vdB03 quenching model (halo_occupation.py), and the NFW
radial profile model (halo_profile_components.py), shallowly embedded
over the real numbers.  Element-wise numpy operations on 1-d arrays
become List.map, numpy scalars become members of ℝ, and the tabulated
Zheng et al. 2007 literature parameters are embedded over ℚ so that the
table lookup is computable and decidable.  numpy.linalg.solve is
modelled by its documented contract: the unique solution of a
nonsingular square linear system, and a LinAlgError (modelled as none)
for a singular system.
-/
import Mathlib

open Set

/-! ### Literature parameter table of Zheng07_HOD_Model.published_parameters

The thresholds and the tabulated parameters are decimal literals, so this
part of the embedding lives in ℚ and is fully computable. -/

/-- The three possible shapes of the threshold argument of
Zheng07_HOD_Model.published_parameters: absent (None), a numeric scalar
(int or float), or a value that is neither (which the source rejects
with a type error). -/
inductive ThresholdInput
  | noInput : ThresholdInput
  | num : ℚ → ThresholdInput
  | nonNumeric : ThresholdInput
deriving DecidableEq

/-- The two failure modes of Zheng07_HOD_Model.published_parameters,
distinguished by the raise site in the source: the scalar type check on
the threshold argument, and the table lookup when the threshold matches
no tabulated value. -/
inductive HODModelError
  | typeError : HODModelError
  | lookupError : HODModelError
deriving DecidableEq

/-- The parameter dictionary produced by
Zheng07_HOD_Model.published_parameters, with keys logMmin_cen,
sigma_logM, logM0_sat, logM1_sat, alpha_sat and fconc. -/
structure ZhengParameterDict where
  logMmin_cen : ℚ
  sigma_logM : ℚ
  logM0_sat : ℚ
  logM1_sat : ℚ
  alpha_sat : ℚ
  fconc : ℚ
deriving DecidableEq

/-- Tabulated data from Zheng et al. 2007, Table 1: logMmin_cen_array. -/
def logMmin_cen_array : List ℚ := [11.35, 11.46, 11.6, 11.75, 12.02, 12.3, 12.79, 13.38, 14.22]

/-- Tabulated data from Zheng et al. 2007, Table 1: sigma_logM_array. -/
def sigma_logM_array : List ℚ := [0.25, 0.24, 0.26, 0.28, 0.26, 0.21, 0.39, 0.51, 0.77]

/-- Tabulated data from Zheng et al. 2007, Table 1: logM0_array. -/
def logM0_array : List ℚ := [11.2, 10.59, 11.49, 11.69, 11.38, 11.84, 11.92, 13.94, 14.0]

/-- Tabulated data from Zheng et al. 2007, Table 1: logM1_array. -/
def logM1_array : List ℚ := [12.4, 12.68, 12.83, 13.01, 13.31, 13.58, 13.94, 13.91, 14.69]

/-- Tabulated data from Zheng et al. 2007, Table 1: alpha_sat_array. -/
def alpha_sat_array : List ℚ := [0.83, 0.97, 1.02, 1.06, 1.06, 1.12, 1.15, 1.04, 0.87]

/-- The luminosity thresholds of the table:
np.arange(-22, -17.5, 0.5) (nine values, -22 up to -18) followed by the
reversal threshold_array[::-1]. -/
def threshold_array : List ℚ :=
  (((List.range 9).map (fun k => (-22 : ℚ) + 0.5 * (k : ℚ)))).reverse

/-- Models np.where(arr == t)[0] on a 1-d array: the list of indices
(counting from i) at which the entry equals t. -/
def np_where_eq (t : ℚ) : List ℚ → ℕ → List ℕ
  | [], _ => []
  | v :: rest, i =>
      if v = t then i :: np_where_eq t rest (i + 1) else np_where_eq t rest (i + 1)

/-- threshold_index: np.where(threshold_array == threshold)[0]. -/
def zheng07_threshold_index (t : ℚ) : List ℕ := np_where_eq t threshold_array 0

/-- The table-lookup step of Zheng07_HOD_Model.published_parameters: if
exactly one index of threshold_array matches the resolved threshold, the
parameter dictionary is assembled from the parallel arrays at that
index (fconc is the constant 1.0); otherwise the source raises (a
lookup failure). -/
def zheng07_parameter_lookup (t : ℚ) : Except HODModelError ZhengParameterDict :=
  match zheng07_threshold_index t with
  | [i] => Except.ok
      { logMmin_cen := logMmin_cen_array.getD i 0
        sigma_logM := sigma_logM_array.getD i 0
        logM0_sat := logM0_array.getD i 0
        logM1_sat := logM1_array.getD i 0
        alpha_sat := alpha_sat_array.getD i 0
        fconc := 1 }
  | _ => Except.error HODModelError.lookupError

/-- Zheng07_HOD_Model.published_parameters: the Bool records whether the
advisory warning (threshold unspecified, default -19.5 substituted) was
emitted; the Except carries the parameter dictionary or the failure.
A missing threshold warns and resolves the default -19.5; a numeric
threshold goes straight to the table lookup; a non-numeric threshold is
rejected by the scalar type check. -/
def published_parameters (threshold : ThresholdInput) :
    Bool × Except HODModelError ZhengParameterDict :=
  match threshold with
  | ThresholdInput.noInput => (true, zheng07_parameter_lookup (-19.5))
  | ThresholdInput.num t => (false, zheng07_parameter_lookup t)
  | ThresholdInput.nonNumeric => (false, Except.error HODModelError.typeError)

noncomputable section

/-! ### halo_profile_components: HaloProfileModel and NFWProfile -/

/-- The external astropy cosmology provider, reduced to the three
read-only queries the core uses: H0, the critical density at z=0
already converted to Msun/Mpc^3, and the matter fraction Om0. -/
structure Cosmology where
  H0 : ℝ
  critical_density0 : ℝ
  Om0 : ℝ

/-- The state stored on a HaloProfileModel instance by its constructor. -/
structure HaloProfileModelState where
  delta_vir : ℝ
  redshift : ℝ
  cosmology : Cosmology
  cosmic_matter_density : ℝ

/-- HaloProfileModel.__init__: despite accepting delta_vir and redshift
arguments, it stores the constants 360.0 and 0.0, and derives
cosmic_matter_density = (critical_density(0) / littleh^2) * Om0 with
littleh = H0/100. -/
def HaloProfileModel_init (delta_vir : ℝ) (cosmology : Cosmology) (redshift : ℝ) :
    HaloProfileModelState :=
  let littleh := cosmology.H0 / 100
  { delta_vir := 360.0
    redshift := 0.0
    cosmology := cosmology
    cosmic_matter_density := cosmology.critical_density0 / littleh ^ 2 * cosmology.Om0 }

/-- NFWProfile.__init__: delegates state construction to
HaloProfileModel.__init__ (the publication string and the optional
lookup-table build do not affect the stored numeric state). -/
def NFWProfile_init (delta_vir : ℝ) (cosmology : Cosmology) (redshift : ℝ) :
    HaloProfileModelState :=
  HaloProfileModel_init delta_vir cosmology redshift

namespace NFWProfile

/-- The local variable denominator of NFWProfile.g:
np.log(1.0+x) - (x/(1.0+x)). -/
def gDenom (x : ℝ) : ℝ := Real.log (1 + x) - x / (1 + x)

/-- NFWProfile.g: 1./denominator. -/
def g (x : ℝ) : ℝ := 1 / gDenom x

/-- NFWProfile.cumulative_mass_PDF: self.g(c) / self.g(r*c). -/
def cumulative_mass_PDF (r c : ℝ) : ℝ := g c / g (r * c)

/-- NFWProfile.rho_s:
(self.delta_vir/3.)*c*c*c*self.g(c)*self.cosmic_matter_density. -/
def rho_s (s : HaloProfileModelState) (c : ℝ) : ℝ :=
  s.delta_vir / 3 * c * c * c * g c * s.cosmic_matter_density

end NFWProfile

/-! ### halo_occupation: module-level functions and Zheng07_HOD_Model -/

/-- halo_occupation.cumulative_NFW_PDF:
norm = np.log(1.+c) - c/(1.+c); result = (np.log(1.+x*c) - x*c/(1.+x*c))/norm. -/
def cumulative_NFW_PDF (x c : ℝ) : ℝ :=
  let norm := Real.log (1 + c) - c / (1 + c)
  (Real.log (1 + x * c) - x * c / (1 + x * c)) / norm

/-- The error function scipy.special.erf:
erf x = 2/sqrt(pi) * integral of exp(-t^2) for t from 0 to x. -/
def erf (x : ℝ) : ℝ :=
  2 / Real.sqrt Real.pi * ∫ t in (0:ℝ)..x, Real.exp (-t ^ 2)

/-- The parameter dictionary of a Zheng07_HOD_Model instance (arbitrary
real values, as supplied by the caller or resolved from the published
table). -/
structure ZhengParams where
  logMmin_cen : ℝ
  sigma_logM : ℝ
  logM0_sat : ℝ
  logM1_sat : ℝ
  alpha_sat : ℝ
  fconc : ℝ

namespace Zheng07_HOD_Model

/-- One element of Zheng07_HOD_Model.mean_ncen:
0.5*(1.0 + erf((logM - logMmin_cen)/sigma_logM)). -/
def mean_ncen_at (p : ZhengParams) (logM : ℝ) : ℝ :=
  0.5 * (1.0 + erf ((logM - p.logMmin_cen) / p.sigma_logM))

/-- Zheng07_HOD_Model.mean_ncen, element-wise on the input array. -/
def mean_ncen (p : ZhengParams) (logM : List ℝ) : List ℝ :=
  logM.map (mean_ncen_at p)

/-- One element of Zheng07_HOD_Model.mean_nsat: the output array starts
at zero and the entries with halo_mass - M0 > 0 (halo_mass = 10**logM,
M0 = 10**logM0_sat, M1 = 10**logM1_sat) are overwritten with
mean_ncen * ((halo_mass - M0)/M1)**alpha_sat. -/
def mean_nsat_at (p : ZhengParams) (logM : ℝ) : ℝ :=
  let halo_mass : ℝ := (10 : ℝ) ^ logM
  let M0 : ℝ := (10 : ℝ) ^ p.logM0_sat
  let M1 : ℝ := (10 : ℝ) ^ p.logM1_sat
  if 0 < halo_mass - M0 then
    mean_ncen_at p logM * ((halo_mass - M0) / M1) ^ p.alpha_sat
  else 0

/-- Zheng07_HOD_Model.mean_nsat, element-wise on the input array. -/
def mean_nsat (p : ZhengParams) (logM : List ℝ) : List ℝ :=
  logM.map (mean_nsat_at p)

end Zheng07_HOD_Model

/-! ### halo_occupation: vdB03_Quenching_Model -/

namespace vdB03_Quenching_Model

/-- The accumulation loop of vdB03_Quenching_Model.quenching_polynomial:
starting from exponent n, adds coeff * logM**n for each remaining
coefficient (the n-th enumerate index pairs with the n-th power). -/
def polynomial_sum_from (logM : ℝ) : ℕ → List ℝ → ℝ
  | _, [] => 0
  | n, coeff :: rest => coeff * logM ^ n + polynomial_sum_from logM (n + 1) rest

/-- One element of vdB03_Quenching_Model.quenching_polynomial: evaluate
the polynomial, then set negative values to 0, then set values
exceeding unity to 1. -/
def quenching_polynomial_at (logM : ℝ) (coefficients : List ℝ) : ℝ :=
  let raw := polynomial_sum_from logM 0 coefficients
  let clipped_below := if raw < 0 then 0 else raw
  if 1 < clipped_below then 1 else clipped_below

/-- vdB03_Quenching_Model.quenching_polynomial, element-wise on the
input array. -/
def quenching_polynomial (logM : List ℝ) (coefficients : List ℝ) : List ℝ :=
  logM.map (fun x => quenching_polynomial_at x coefficients)

/-- The polynomial-coefficient state stored on a vdB03_Quenching_Model
instance at construction. -/
structure State where
  central_quenching_polynomial_coefficients : List ℝ
  satellite_quenching_polynomial_coefficients : List ℝ

/-- vdB03_Quenching_Model.mean_quenched_fraction_centrals. -/
def mean_quenched_fraction_centrals (m : State) (logM : List ℝ) : List ℝ :=
  quenching_polynomial logM m.central_quenching_polynomial_coefficients

/-- vdB03_Quenching_Model.mean_quenched_fraction_satellites. -/
def mean_quenched_fraction_satellites (m : State) (logM : List ℝ) : List ℝ :=
  quenching_polynomial logM m.satellite_quenching_polynomial_coefficients

/-- The matrix built by
vdB03_Quenching_Model.solve_for_quenching_polynomial_coefficients: the
flat array [ones, abcissa**1, ..., abcissa**(N-1)] reshaped to N rows
(row i holds abcissa**i) and then transposed, so that entry (i, j) is
logM_abcissa[i]**j. -/
def quenching_model_matrix {n : ℕ} (logM_abcissa : Fin n → ℝ) :
    Matrix (Fin n) (Fin n) ℝ :=
  (Matrix.of fun i j : Fin n => logM_abcissa j ^ (i : ℕ)).transpose

/-- Models numpy.linalg.solve on a square system by its documented
contract: the exact solution A⁻¹ b when A is nonsingular, and a
LinAlgError (none) when A is singular. -/
def np_linalg_solve {n : ℕ} (A : Matrix (Fin n) (Fin n) ℝ) (b : Fin n → ℝ) :
    Option (Fin n → ℝ) :=
  if A.det ≠ 0 then some (A⁻¹.mulVec b) else none

/-- vdB03_Quenching_Model.solve_for_quenching_polynomial_coefficients:
build the quenching_model_matrix from the abcissas and solve the linear
system against the quenched fractions. -/
def solve_for_quenching_polynomial_coefficients {n : ℕ}
    (logM_abcissa quenched_fractions : Fin n → ℝ) : Option (Fin n → ℝ) :=
  np_linalg_solve (quenching_model_matrix logM_abcissa) quenched_fractions

end vdB03_Quenching_Model

end

/-! ### Helper lemmas for the NFW profile -/

theorem NFWProfile.gDenom_zero : NFWProfile.gDenom 0 = 0 := by
  simp [NFWProfile.gDenom]

theorem NFWProfile.gDenom_hasDerivAt (x : ℝ) (hx : 0 ≤ x) :
    HasDerivAt NFWProfile.gDenom (x / (1 + x) ^ 2) x := by
  have hne : (1 : ℝ) + x ≠ 0 := by positivity
  have h1 : HasDerivAt (fun y : ℝ => 1 + y) 1 x := (hasDerivAt_id x).const_add 1
  have hlog : HasDerivAt (fun y : ℝ => Real.log (1 + y)) (1 / (1 + x)) x := by
    simpa using h1.log hne
  have hdiv : HasDerivAt (fun y : ℝ => y / (1 + y))
      ((1 * (1 + x) - x * 1) / (1 + x) ^ 2) x :=
    (hasDerivAt_id x).div h1 hne
  have := hlog.sub hdiv
  convert this using 1
  field_simp
  ring

theorem NFWProfile.gDenom_continuousOn :
    ContinuousOn NFWProfile.gDenom (Ici 0) :=
  fun x hx => ((NFWProfile.gDenom_hasDerivAt x hx).continuousAt).continuousWithinAt

theorem NFWProfile.gDenom_strictMonoOn :
    StrictMonoOn NFWProfile.gDenom (Ici 0) := by
  refine strictMonoOn_of_deriv_pos (convex_Ici 0) NFWProfile.gDenom_continuousOn ?_
  intro x hx
  rw [interior_Ici] at hx
  have hx0 : 0 < x := hx
  rw [(NFWProfile.gDenom_hasDerivAt x hx0.le).deriv]
  positivity

theorem NFWProfile.gDenom_pos {x : ℝ} (hx : 0 < x) : 0 < NFWProfile.gDenom x := by
  have := NFWProfile.gDenom_strictMonoOn (left_mem_Ici) (le_of_lt hx : (0:ℝ) ≤ x) hx
  rwa [NFWProfile.gDenom_zero] at this

theorem NFWProfile.cumulative_mass_PDF_eq_div (r c : ℝ) :
    NFWProfile.cumulative_mass_PDF r c =
      NFWProfile.gDenom (r * c) / NFWProfile.gDenom c := by
  simp [NFWProfile.cumulative_mass_PDF, NFWProfile.g, div_eq_mul_inv, one_div,
    mul_comm]

/-! ### Claim theorems for the NFW profile -/

/-- C2: for every concentration c > 0, NFWProfile.cumulative_mass_PDF r c
equals g c / g (r*c) on (0,1], is strictly monotone increasing in r on
(0,1], and equals exactly 1 at r = 1. -/
theorem nfw_cumulative_mass_PDF_spec (c : ℝ) (hc : 0 < c) :
    (∀ r ∈ Ioc (0:ℝ) 1,
      NFWProfile.cumulative_mass_PDF r c = NFWProfile.g c / NFWProfile.g (r * c)) ∧
    StrictMonoOn (fun r => NFWProfile.cumulative_mass_PDF r c) (Ioc (0:ℝ) 1) ∧
    NFWProfile.cumulative_mass_PDF 1 c = 1 := by
  refine ⟨fun r _ => rfl, ?_, ?_⟩
  · intro r₁ h₁ r₂ h₂ hlt
    simp only
    rw [NFWProfile.cumulative_mass_PDF_eq_div, NFWProfile.cumulative_mass_PDF_eq_div]
    have hd : 0 < NFWProfile.gDenom c := NFWProfile.gDenom_pos hc
    have harg : NFWProfile.gDenom (r₁ * c) < NFWProfile.gDenom (r₂ * c) :=
      NFWProfile.gDenom_strictMonoOn
        (mem_Ici.mpr (le_of_lt (mul_pos h₁.1 hc)))
        (mem_Ici.mpr (le_of_lt (mul_pos (lt_trans h₁.1 hlt) hc)))
        (mul_lt_mul_of_pos_right hlt hc)
    exact (div_lt_div_iff_of_pos_right hd).mpr harg
  · rw [NFWProfile.cumulative_mass_PDF_eq_div, one_mul]
    exact div_self (ne_of_gt (NFWProfile.gDenom_pos hc))

/-- Witness for C2 at c = 1. -/
theorem nfw_cumulative_mass_PDF_spec_witness :
    (0:ℝ) < 1 ∧
    ((∀ r ∈ Ioc (0:ℝ) 1,
      NFWProfile.cumulative_mass_PDF r 1 = NFWProfile.g 1 / NFWProfile.g (r * 1)) ∧
    StrictMonoOn (fun r => NFWProfile.cumulative_mass_PDF r 1) (Ioc (0:ℝ) 1) ∧
    NFWProfile.cumulative_mass_PDF 1 1 = 1) :=
  ⟨by norm_num, nfw_cumulative_mass_PDF_spec 1 (by norm_num)⟩

/-- C9: on 0 < x < 1 and c > 0, the module-level cumulative_NFW_PDF of
halo_occupation agrees with NFWProfile.cumulative_mass_PDF of
halo_profile_components: the two implementations denote the same
function. -/
theorem cumulative_NFW_PDF_matches_profile (x c : ℝ)
    (hx0 : 0 < x) (hx1 : x < 1) (hc : 0 < c) :
    cumulative_NFW_PDF x c = NFWProfile.cumulative_mass_PDF x c := by
  rw [NFWProfile.cumulative_mass_PDF_eq_div]
  rfl

/-- Witness for C9 at x = 1/2, c = 1. -/
theorem cumulative_NFW_PDF_matches_profile_witness :
    (0:ℝ) < 1/2 ∧ (1/2 : ℝ) < 1 ∧ (0:ℝ) < 1 ∧
    cumulative_NFW_PDF (1/2) 1 = NFWProfile.cumulative_mass_PDF (1/2) 1 :=
  ⟨by norm_num, by norm_num, by norm_num,
    cumulative_NFW_PDF_matches_profile (1/2) 1 (by norm_num) (by norm_num) (by norm_num)⟩

/-- C10: the delta_vir and redshift arguments of the profile-model
constructors are ignored: any two instances built from the same
cosmology have identical state, the stored delta_vir is 360, the stored
redshift is 0, and derived quantities such as rho_s agree. -/
theorem nfw_init_ignores_delta_vir_and_redshift
    (delta_vir₁ redshift₁ delta_vir₂ redshift₂ : ℝ) (cosmo : Cosmology) (c : ℝ) :
    NFWProfile_init delta_vir₁ cosmo redshift₁ = NFWProfile_init delta_vir₂ cosmo redshift₂ ∧
    (NFWProfile_init delta_vir₁ cosmo redshift₁).delta_vir = 360 ∧
    (NFWProfile_init delta_vir₁ cosmo redshift₁).redshift = 0 ∧
    NFWProfile.rho_s (NFWProfile_init delta_vir₁ cosmo redshift₁) c =
      NFWProfile.rho_s (NFWProfile_init delta_vir₂ cosmo redshift₂) c :=
  ⟨rfl, by norm_num [NFWProfile_init, HaloProfileModel_init],
    by norm_num [NFWProfile_init, HaloProfileModel_init], rfl⟩

/-! ### Bounds on the error function -/

theorem sqrt_pi_pos : 0 < Real.sqrt Real.pi := Real.sqrt_pos.mpr Real.pi_pos

theorem exp_neg_sq_integrableOn_Ioi :
    MeasureTheory.IntegrableOn (fun t : ℝ => Real.exp (-t ^ 2)) (Ioi 0) := by
  have h := (integrable_exp_neg_mul_sq (by norm_num : (0:ℝ) < 1)).integrableOn
    (s := Ioi 0)
  simpa using h

theorem gaussInt_nonneg (x : ℝ) (hx : 0 ≤ x) :
    0 ≤ ∫ t in (0:ℝ)..x, Real.exp (-t ^ 2) :=
  intervalIntegral.integral_nonneg hx (fun u _ => (Real.exp_pos _).le)

theorem gaussInt_le (x : ℝ) (hx : 0 ≤ x) :
    (∫ t in (0:ℝ)..x, Real.exp (-t ^ 2)) ≤ Real.sqrt Real.pi / 2 := by
  rw [intervalIntegral.integral_of_le hx]
  have hIoi : (∫ t in Ioi (0:ℝ), Real.exp (-t ^ 2)) = Real.sqrt Real.pi / 2 := by
    have h := integral_gaussian_Ioi 1
    simpa using h
  rw [← hIoi]
  refine MeasureTheory.setIntegral_mono_set exp_neg_sq_integrableOn_Ioi ?_ ?_
  · exact MeasureTheory.ae_of_all _ fun t => (Real.exp_pos _).le
  · exact HasSubset.Subset.eventuallyLE Ioc_subset_Ioi_self

theorem gaussInt_neg (x : ℝ) :
    (∫ t in (0:ℝ)..(-x), Real.exp (-t ^ 2)) = -∫ t in (0:ℝ)..x, Real.exp (-t ^ 2) := by
  have h := intervalIntegral.integral_comp_neg (a := (0:ℝ)) (b := x)
    (fun t : ℝ => Real.exp (-t ^ 2))
  simp only [neg_sq, neg_zero] at h
  rw [intervalIntegral.integral_symm 0 (-x)] at h
  linarith

theorem two_div_sqrt_pi_mul_half : 2 / Real.sqrt Real.pi * (Real.sqrt Real.pi / 2) = 1 := by
  have h : Real.sqrt Real.pi ≠ 0 := ne_of_gt sqrt_pi_pos
  field_simp

theorem erf_le_one (x : ℝ) : erf x ≤ 1 := by
  have hk : 0 ≤ 2 / Real.sqrt Real.pi := by positivity
  rcases le_or_lt 0 x with hx | hx
  · calc erf x ≤ 2 / Real.sqrt Real.pi * (Real.sqrt Real.pi / 2) :=
        mul_le_mul_of_nonneg_left (gaussInt_le x hx) hk
      _ = 1 := two_div_sqrt_pi_mul_half
  · have hI : (∫ t in (0:ℝ)..x, Real.exp (-t ^ 2)) ≤ 0 := by
      have h1 := gaussInt_nonneg (-x) (by linarith)
      have h2 := gaussInt_neg (-x)
      rw [neg_neg] at h2
      linarith
    have : erf x ≤ 0 := mul_nonpos_iff.mpr (Or.inl ⟨hk, hI⟩)
    linarith

theorem neg_one_le_erf (x : ℝ) : -1 ≤ erf x := by
  have hk : 0 ≤ 2 / Real.sqrt Real.pi := by positivity
  rcases le_or_lt 0 x with hx | hx
  · have : 0 ≤ erf x := mul_nonneg hk (gaussInt_nonneg x hx)
    linarith
  · have h2 := gaussInt_neg (-x)
    rw [neg_neg] at h2
    have hle := gaussInt_le (-x) (by linarith)
    have hmul : 2 / Real.sqrt Real.pi * (∫ t in (0:ℝ)..(-x), Real.exp (-t ^ 2)) ≤ 1 := by
      calc 2 / Real.sqrt Real.pi * (∫ t in (0:ℝ)..(-x), Real.exp (-t ^ 2)) ≤
          2 / Real.sqrt Real.pi * (Real.sqrt Real.pi / 2) :=
            mul_le_mul_of_nonneg_left hle hk
        _ = 1 := two_div_sqrt_pi_mul_half
    unfold erf
    rw [h2]
    linarith

/-! ### Element access through List.map -/

theorem list_getD_map (f : ℝ → ℝ) (l : List ℝ) (i : ℕ) (h : i < l.length) :
    (l.map f).getD i 0 = f (l.getD i 0) := by
  rw [List.getD_eq_getElem?_getD, List.getD_eq_getElem?_getD, List.getElem?_map,
    List.getElem?_eq_getElem h]
  rfl

/-! ### Claim theorems for the Zheng07 occupation model -/

/-- C8: every element of Zheng07_HOD_Model.mean_ncen lies in [0, 1]
(with sigma_logM positive in the parameter set). -/
theorem zheng07_mean_ncen_bounded (p : ZhengParams) (logM : List ℝ) (i : ℕ)
    (hs : 0 < p.sigma_logM) (h : i < logM.length) :
    0 ≤ (Zheng07_HOD_Model.mean_ncen p logM).getD i 0 ∧
      (Zheng07_HOD_Model.mean_ncen p logM).getD i 0 ≤ 1 := by
  rw [Zheng07_HOD_Model.mean_ncen, list_getD_map _ _ _ h]
  have h1 := neg_one_le_erf ((logM.getD i 0 - p.logMmin_cen) / p.sigma_logM)
  have h2 := erf_le_one ((logM.getD i 0 - p.logMmin_cen) / p.sigma_logM)
  unfold Zheng07_HOD_Model.mean_ncen_at
  constructor <;> linarith

/-- Witness for C8 with the parameter set (0, 1, 0, 0, 1, 1) and the
singleton mass array [0]. -/
theorem zheng07_mean_ncen_bounded_witness :
    (0:ℝ) < 1 ∧ 0 < [(0:ℝ)].length ∧
    (0 ≤ (Zheng07_HOD_Model.mean_ncen ⟨0, 1, 0, 0, 1, 1⟩ [0]).getD 0 0 ∧
      (Zheng07_HOD_Model.mean_ncen ⟨0, 1, 0, 0, 1, 1⟩ [0]).getD 0 0 ≤ 1) :=
  ⟨by norm_num, by simp,
    zheng07_mean_ncen_bounded ⟨0, 1, 0, 0, 1, 1⟩ [0] 0 (by norm_num) (by simp)⟩

/-- C1: element-wise, Zheng07_HOD_Model.mean_nsat is 0 where
10**logM - M0 is nonpositive, and elsewhere is
mean_ncen * ((10**logM - M0)/M1)**alpha_sat, with M0 = 10**logM0_sat
and M1 = 10**logM1_sat from the parameter set. -/
theorem zheng07_mean_nsat_spec (p : ZhengParams) (logM : List ℝ) (i : ℕ)
    (h : i < logM.length) :
    ((10:ℝ) ^ logM.getD i 0 - (10:ℝ) ^ p.logM0_sat ≤ 0 →
      (Zheng07_HOD_Model.mean_nsat p logM).getD i 0 = 0) ∧
    (0 < (10:ℝ) ^ logM.getD i 0 - (10:ℝ) ^ p.logM0_sat →
      (Zheng07_HOD_Model.mean_nsat p logM).getD i 0 =
        (Zheng07_HOD_Model.mean_ncen p logM).getD i 0 *
          (((10:ℝ) ^ logM.getD i 0 - (10:ℝ) ^ p.logM0_sat) /
            (10:ℝ) ^ p.logM1_sat) ^ p.alpha_sat) := by
  rw [Zheng07_HOD_Model.mean_nsat, Zheng07_HOD_Model.mean_ncen,
    list_getD_map _ _ _ h, list_getD_map _ _ _ h]
  simp only [Zheng07_HOD_Model.mean_nsat_at]
  constructor
  · intro hle
    rw [if_neg (not_lt.mpr hle)]
  · intro hpos
    rw [if_pos hpos]

/-- Witness for C1 with the parameter set (0, 1, 0, 0, 1, 1) and the
singleton mass array [0]. -/
theorem zheng07_mean_nsat_spec_witness :
    0 < [(0:ℝ)].length ∧
    (((10:ℝ) ^ [(0:ℝ)].getD 0 0 - (10:ℝ) ^ (0:ℝ) ≤ 0 →
      (Zheng07_HOD_Model.mean_nsat ⟨0, 1, 0, 0, 1, 1⟩ [0]).getD 0 0 = 0) ∧
    (0 < (10:ℝ) ^ [(0:ℝ)].getD 0 0 - (10:ℝ) ^ (0:ℝ) →
      (Zheng07_HOD_Model.mean_nsat ⟨0, 1, 0, 0, 1, 1⟩ [0]).getD 0 0 =
        (Zheng07_HOD_Model.mean_ncen ⟨0, 1, 0, 0, 1, 1⟩ [0]).getD 0 0 *
          (((10:ℝ) ^ [(0:ℝ)].getD 0 0 - (10:ℝ) ^ (0:ℝ)) /
            (10:ℝ) ^ (0:ℝ)) ^ (1:ℝ))) :=
  ⟨by simp, zheng07_mean_nsat_spec ⟨0, 1, 0, 0, 1, 1⟩ [0] 0 (by simp)⟩

/-! ### Claim theorems for the vdB03 quenching model -/

theorem quenching_polynomial_at_bounds (logM : ℝ) (coefficients : List ℝ) :
    0 ≤ vdB03_Quenching_Model.quenching_polynomial_at logM coefficients ∧
      vdB03_Quenching_Model.quenching_polynomial_at logM coefficients ≤ 1 := by
  unfold vdB03_Quenching_Model.quenching_polynomial_at
  dsimp only
  split_ifs <;> constructor <;> linarith

/-- C4: every element produced by
vdB03_Quenching_Model.quenching_polynomial, and hence by
mean_quenched_fraction_centrals and mean_quenched_fraction_satellites,
lies in [0, 1]: raw polynomial values below 0 are set to 0 and values
above 1 are set to 1. -/
theorem vdB03_quenching_polynomial_clamped (logM : ℝ) (coefficients : List ℝ)
    (m : vdB03_Quenching_Model.State) (logMs : List ℝ) (i : ℕ)
    (h : i < logMs.length) :
    (0 ≤ vdB03_Quenching_Model.quenching_polynomial_at logM coefficients ∧
      vdB03_Quenching_Model.quenching_polynomial_at logM coefficients ≤ 1) ∧
    (0 ≤ (vdB03_Quenching_Model.mean_quenched_fraction_centrals m logMs).getD i 0 ∧
      (vdB03_Quenching_Model.mean_quenched_fraction_centrals m logMs).getD i 0 ≤ 1) ∧
    (0 ≤ (vdB03_Quenching_Model.mean_quenched_fraction_satellites m logMs).getD i 0 ∧
      (vdB03_Quenching_Model.mean_quenched_fraction_satellites m logMs).getD i 0 ≤ 1) := by
  refine ⟨quenching_polynomial_at_bounds logM coefficients, ?_, ?_⟩
  · unfold vdB03_Quenching_Model.mean_quenched_fraction_centrals
      vdB03_Quenching_Model.quenching_polynomial
    rw [list_getD_map _ _ _ h]
    exact quenching_polynomial_at_bounds _ _
  · unfold vdB03_Quenching_Model.mean_quenched_fraction_satellites
      vdB03_Quenching_Model.quenching_polynomial
    rw [list_getD_map _ _ _ h]
    exact quenching_polynomial_at_bounds _ _

/-- Witness for C4 with empty coefficient lists and the singleton mass
array [0]. -/
theorem vdB03_quenching_polynomial_clamped_witness :
    0 < [(0:ℝ)].length ∧
    ((0 ≤ vdB03_Quenching_Model.quenching_polynomial_at 0 [] ∧
      vdB03_Quenching_Model.quenching_polynomial_at 0 [] ≤ 1) ∧
    (0 ≤ (vdB03_Quenching_Model.mean_quenched_fraction_centrals ⟨[], []⟩ [0]).getD 0 0 ∧
      (vdB03_Quenching_Model.mean_quenched_fraction_centrals ⟨[], []⟩ [0]).getD 0 0 ≤ 1) ∧
    (0 ≤ (vdB03_Quenching_Model.mean_quenched_fraction_satellites ⟨[], []⟩ [0]).getD 0 0 ∧
      (vdB03_Quenching_Model.mean_quenched_fraction_satellites ⟨[], []⟩ [0]).getD 0 0 ≤ 1)) :=
  ⟨by simp, vdB03_quenching_polynomial_clamped 0 [] ⟨[], []⟩ [0] 0 (by simp)⟩

theorem quenching_model_matrix_eq_vandermonde {n : ℕ} (a : Fin n → ℝ) :
    vdB03_Quenching_Model.quenching_model_matrix a = Matrix.vandermonde a := by
  ext i j
  rfl

/-- C5: with pairwise-distinct abcissas,
solve_for_quenching_polynomial_coefficients succeeds and returns
coefficients whose polynomial passes exactly through every control
point. -/
theorem vdB03_solve_coefficients_interpolate {n : ℕ}
    (logM_abcissa quenched_fractions : Fin n → ℝ)
    (hinj : Function.Injective logM_abcissa) :
    ∃ coeff,
      vdB03_Quenching_Model.solve_for_quenching_polynomial_coefficients
        logM_abcissa quenched_fractions = some coeff ∧
      ∀ i, (∑ j, coeff j * logM_abcissa i ^ (j : ℕ)) = quenched_fractions i := by
  have hdet : (Matrix.vandermonde logM_abcissa).det ≠ 0 :=
    Matrix.det_vandermonde_ne_zero_iff.mpr hinj
  refine ⟨(Matrix.vandermonde logM_abcissa)⁻¹.mulVec quenched_fractions, ?_, ?_⟩
  · unfold vdB03_Quenching_Model.solve_for_quenching_polynomial_coefficients
      vdB03_Quenching_Model.np_linalg_solve
    rw [quenching_model_matrix_eq_vandermonde, if_pos hdet]
  · intro i
    have hmul : (Matrix.vandermonde logM_abcissa).mulVec
        ((Matrix.vandermonde logM_abcissa)⁻¹.mulVec quenched_fractions) =
        quenched_fractions := by
      rw [Matrix.mulVec_mulVec,
        Matrix.mul_nonsing_inv _ (isUnit_iff_ne_zero.mpr hdet), Matrix.one_mulVec]
    conv_rhs => rw [← hmul]
    simp [Matrix.mulVec, Matrix.dotProduct, Matrix.vandermonde, mul_comm]

/-- Witness for C5 with abcissas (0, 1) and quenched fractions (0, 0). -/
theorem vdB03_solve_coefficients_interpolate_witness :
    Function.Injective (![0, 1] : Fin 2 → ℝ) ∧
    (∃ coeff,
      vdB03_Quenching_Model.solve_for_quenching_polynomial_coefficients
        (![0, 1] : Fin 2 → ℝ) ![0, 0] = some coeff ∧
      ∀ i, (∑ j, coeff j * (![0, 1] : Fin 2 → ℝ) i ^ (j : ℕ)) =
        (![0, 0] : Fin 2 → ℝ) i) := by
  have hinj : Function.Injective (![0, 1] : Fin 2 → ℝ) := by
    intro i j hij
    fin_cases i <;> fin_cases j <;> first | rfl | (exfalso; norm_num at hij)
  exact ⟨hinj, vdB03_solve_coefficients_interpolate ![0, 1] ![0, 0] hinj⟩

/-- C7: with degenerate abcissas (a repeated value), the linear system
is singular and solve_for_quenching_polynomial_coefficients fails with
the singular-matrix error (no fallback result). -/
theorem vdB03_solve_coefficients_singular {n : ℕ}
    (logM_abcissa quenched_fractions : Fin n → ℝ) (i j : Fin n)
    (hij : i ≠ j) (heq : logM_abcissa i = logM_abcissa j) :
    vdB03_Quenching_Model.solve_for_quenching_polynomial_coefficients
      logM_abcissa quenched_fractions = none := by
  have hdet : (Matrix.vandermonde logM_abcissa).det = 0 :=
    Matrix.det_vandermonde_eq_zero_iff.mpr ⟨i, j, heq, hij⟩
  unfold vdB03_Quenching_Model.solve_for_quenching_polynomial_coefficients
    vdB03_Quenching_Model.np_linalg_solve
  rw [quenching_model_matrix_eq_vandermonde, if_neg (by simp [hdet])]

/-- Witness for C7 with the degenerate abcissas (0, 0). -/
theorem vdB03_solve_coefficients_singular_witness :
    (0 : Fin 2) ≠ 1 ∧ (![0, 0] : Fin 2 → ℝ) 0 = (![0, 0] : Fin 2 → ℝ) 1 ∧
    vdB03_Quenching_Model.solve_for_quenching_polynomial_coefficients
      (![0, 0] : Fin 2 → ℝ) ![0, 1] = none :=
  ⟨by decide, rfl,
    vdB03_solve_coefficients_singular ![0, 0] ![0, 1] 0 1 (by decide) rfl⟩

/-! ### Claim theorem for published-parameter resolution -/

theorem np_where_eq_nil (t : ℚ) (l : List ℚ) :
    ∀ i : ℕ, t ∉ l → np_where_eq t l i = [] := by
  induction l with
  | nil => intro i _; rfl
  | cons v rest ih =>
      intro i h
      rw [np_where_eq,
        if_neg (fun hv : v = t => h (List.mem_cons.mpr (Or.inl hv.symm)))]
      exact ih (i + 1) (fun hm => h (List.mem_cons_of_mem _ hm))

theorem zheng07_parameter_lookup_not_mem {t : ℚ} (h : t ∉ threshold_array) :
    zheng07_parameter_lookup t = Except.error HODModelError.lookupError := by
  unfold zheng07_parameter_lookup zheng07_threshold_index
  rw [np_where_eq_nil t threshold_array 0 h]

theorem threshold_array_eq :
    threshold_array = [-18, -18.5, -19, -19.5, -20, -20.5, -21, -21.5, -22] := by
  unfold threshold_array
  norm_num [List.range_succ]

theorem zheng07_threshold_index_of_default : zheng07_threshold_index (-19.5) = [3] := by
  unfold zheng07_threshold_index
  rw [threshold_array_eq]
  norm_num [np_where_eq]

/-- C6: constructing Zheng07_HOD_Model with parameter_dict=None: a
missing threshold resolves the default -19.5 (its Table 1 parameters)
with the advisory warning emitted; a numeric threshold outside the
tabulated set (such as -30) fails with the parameter-lookup error; a
non-numeric threshold fails with the type error. -/
theorem zheng07_published_parameters_spec :
    (published_parameters ThresholdInput.noInput =
      (true, Except.ok ⟨11.75, 0.28, 11.69, 13.01, 1.06, 1⟩)) ∧
    (∀ t : ℚ, t ∉ threshold_array →
      published_parameters (ThresholdInput.num t) =
        (false, Except.error HODModelError.lookupError)) ∧
    published_parameters (ThresholdInput.num (-30)) =
      (false, Except.error HODModelError.lookupError) ∧
    published_parameters ThresholdInput.nonNumeric =
      (false, Except.error HODModelError.typeError) := by
  refine ⟨?_, ?_, ?_, rfl⟩
  · show (true, zheng07_parameter_lookup (-19.5)) = _
    unfold zheng07_parameter_lookup
    rw [zheng07_threshold_index_of_default]
    norm_num [logMmin_cen_array, sigma_logM_array, logM0_array, logM1_array,
      alpha_sat_array]
  · intro t ht
    show (false, zheng07_parameter_lookup t) = _
    rw [zheng07_parameter_lookup_not_mem ht]
  · show (false, zheng07_parameter_lookup (-30)) = _
    rw [zheng07_parameter_lookup_not_mem (by rw [threshold_array_eq]; norm_num)]

/-- Witness for C6 at the threshold -30. -/
theorem zheng07_published_parameters_spec_witness :
    ((-30 : ℚ) ∉ threshold_array) ∧
    published_parameters (ThresholdInput.num (-30)) =
      (false, Except.error HODModelError.lookupError) :=
  ⟨by rw [threshold_array_eq]; norm_num,
    zheng07_published_parameters_spec.2.1 (-30) (by rw [threshold_array_eq]; norm_num)⟩
